import Mathlib

/-!
Shallow embedding of the ESRGANplus-YT metric-evaluation scripts.

The repository has three near-duplicate Python scripts that compute PSNR and
SSIM between a directory of super-resolution outputs and a directory of
ground-truth images:

* `ESRGANplus/cal_metrics.py` (namespace `CalMetrics` below): basename-substring
  matching, 0-1 float normalization, per-pair try/except around the metric calls.
* `ESRGANplus/test_image/calculate_metrics.py` (namespace `TestImage`): exact
  filename matching via set intersection, native 0-255 range, one outer
  try/except around the whole body.
* `ESRGANplus/calculate_metrics.py` (namespace `Single`): a single-pair helper
  using `cv2.PSNR` on the color images and SSIM on the Y channel.

External collaborators (`os.listdir`, `os.path.exists`, `cv2.imread`,
`cv2.resize`, `cv2.cvtColor`/Y-extraction, `skimage` PSNR/SSIM, `cv2.PSNR`)
are modelled as fields of an `Env` record: they are the library boundary the
spec declares out of scope.  Pixel samples are modelled as `Nat` (decoded
8-bit data) and `ℚ` (after `astype(np.float32)` conversions); value-range
claims are about exact ranges, not float rounding.  `skimage` metric calls may
raise, hence `Except String ℚ`.
-/

namespace ESRGAN

/-! ### Python string primitives (on code-point lists) -/

/-- Python substring test `needle in haystack` (contiguous substring). -/
def isSub : List Char → List Char → Bool
  | needle, [] => needle == []
  | needle, c :: rest => needle.isPrefixOf (c :: rest) || isSub needle rest

/-- Python `str.endswith` on code-point lists. -/
def endsWithL (l suffix : List Char) : Bool :=
  suffix.reverse.isPrefixOf l.reverse

/-- ASCII lowercasing of one character, the fragment of Python `str.lower`
relevant to file extensions. -/
def lowerC (c : Char) : Char :=
  if 'A' ≤ c ∧ c ≤ 'Z' then Char.ofNat (c.toNat + 32) else c

/-- `s.lower()` as a code-point list. -/
def lowerData (s : String) : List Char := s.data.map lowerC

/-- Python string `<` (lexicographic by code point). -/
def strLtB : List Char → List Char → Bool
  | [], [] => false
  | [], _ :: _ => true
  | _ :: _, [] => false
  | a :: as, b :: bs =>
    if a.toNat < b.toNat then true
    else if b.toNat < a.toNat then false
    else strLtB as bs

/-- Python string `<=` as a Bool. -/
def strLeB (a b : List Char) : Bool := !(strLtB b a)

/-- Python string `<=` as the ordering relation used by `sorted`. -/
def strLe (a b : String) : Prop := strLeB a.data b.data = true

instance : DecidableRel strLe := fun a b =>
  inferInstanceAs (Decidable (strLeB a.data b.data = true))

/-- `os.path.splitext(p)[0]` for plain file names (no directory separator, as
returned by `os.listdir`): cut at the last dot provided some character before
it is not a dot; otherwise the name is returned whole. -/
def splitextBase (s : String) : String :=
  let l := s.data
  match (l.reverse.findIdx? (· = '.')).map (fun j => l.length - 1 - j) with
  | none => s
  | some d => if (l.take d).any (fun c => c ≠ '.') then ⟨l.take d⟩ else s

/-- `os.path.join(d, f)` on POSIX with a plain file name. -/
def joinPath (d f : String) : String := d ++ "/" ++ f

/-- `f.lower().endswith(('.png', '.jpg', '.jpeg'))` — the extension allow-list
of `cal_metrics.py`. -/
def hasImgExt3 (f : String) : Bool :=
  endsWithL (lowerData f) ".png".data || endsWithL (lowerData f) ".jpg".data ||
    endsWithL (lowerData f) ".jpeg".data

/-- `f.lower().endswith(('.png', '.jpg', '.jpeg', '.bmp'))` — the allow-list of
`test_image/calculate_metrics.py`. -/
def hasImgExt4 (f : String) : Bool :=
  endsWithL (lowerData f) ".png".data || endsWithL (lowerData f) ".jpg".data ||
    endsWithL (lowerData f) ".jpeg".data || endsWithL (lowerData f) ".bmp".data

/-! ### Images and the external-library environment -/

/-- A decoded 8-bit image as produced by `cv2.imread`: spatial dimensions, a
channel count, and its raw integer samples.  `shape` is the numpy
`(height, width, channels)` triple. -/
structure Img where
  height : Nat
  width : Nat
  channels : Nat
  pix : List Nat
  deriving DecidableEq

def Img.shape (i : Img) : Nat × Nat × Nat := (i.height, i.width, i.channels)

/-- All samples fit in 8 bits — guaranteed for anything `cv2.imread` decodes. -/
def Img.eightBit (i : Img) : Prop := ∀ v ∈ i.pix, v ≤ 255

instance (i : Img) : Decidable i.eightBit :=
  inferInstanceAs (Decidable (∀ v ∈ i.pix, v ≤ 255))

/-- An image after conversion to floating point, samples modelled as `ℚ`. -/
structure QImg where
  height : Nat
  width : Nat
  channels : Nat
  pix : List ℚ
  deriving DecidableEq

def QImg.shape (i : QImg) : Nat × Nat × Nat := (i.height, i.width, i.channels)

/-- `img.astype(np.float32) / 255.0` — normalization to the `[0,1]` range. -/
def norm01 (i : Img) : QImg :=
  ⟨i.height, i.width, i.channels, i.pix.map (fun (v : Nat) => (v : ℚ) / 255)⟩

/-- `img.astype(np.float32)` — numeric conversion keeping the native 8-bit
`[0,255]` range (also models passing a `uint8` array straight to a metric). -/
def imgToQ (i : Img) : QImg :=
  ⟨i.height, i.width, i.channels, i.pix.map (fun (v : Nat) => (v : ℚ))⟩

/-- The external-library and filesystem boundary.  `imread p = none` models a
failed decode (`cv2.imread` returning `None`); `psnr`/`ssim` are
`skimage.metrics.peak_signal_noise_ratio` / `structural_similarity` with their
`data_range` argument, returning `.error` when the library raises; `cvPSNR` is
`cv2.PSNR` with its maximum-value parameter (255 by default); `toY` is the
YCrCb conversion plus Y-channel extraction; `resizePix` gives the sample
content `cv2.resize` produces for given target height, width and channels. -/
structure Env where
  dirExists : String → Bool
  listdir : String → List String
  imread : String → Option Img
  resizePix : List Nat → Nat → Nat → Nat → List Nat
  psnr : QImg → QImg → ℚ → Except String ℚ
  ssim : QImg → QImg → ℚ → Except String ℚ
  cvPSNR : Img → Img → ℚ → ℚ
  toY : Img → Img

/-- `cv2.resize(img, (w, h))`: spatial dimensions become `(h, w)`, the channel
count is unchanged, content comes from the library. -/
def cvResize (env : Env) (img : Img) (w h : Nat) : Img :=
  ⟨h, w, img.channels, env.resizePix img.pix h w img.channels⟩

/-- The shared shape-reconciliation step of all three scripts:
`if out.shape != gt.shape: out = cv2.resize(out, (gt.shape[1], gt.shape[0]))`.
Only the output image is ever reassigned; the ground truth passes through the
surrounding code untouched. -/
def reconcileOut (env : Env) (outImg gtImg : Img) : Img :=
  if outImg.shape ≠ gtImg.shape then cvResize env outImg gtImg.width gtImg.height
  else outImg

/-- `np.mean` of a list of values (only used under a non-emptiness guard in
the scripts). -/
def mean (l : List ℚ) : ℚ := l.sum / l.length

/-! ### `ESRGANplus/cal_metrics.py` -/

namespace CalMetrics

open ESRGAN

/-- The matching predicate of `cal_metrics.py` line 29:
`os.path.splitext(f)[0] in base_name`, with `base_name = os.path.splitext(res_file)[0]`. -/
def baseSub (f resFile : String) : Bool :=
  isSub (splitextBase f).data (splitextBase resFile).data

/-- `next((f for f in hr_files if os.path.splitext(f)[0] in base_name), None)`:
the first ground-truth file whose extension-stripped base name is a substring
of the output's base name. -/
def matchHR (hrFiles : List String) (resFile : String) : Option String :=
  hrFiles.find? (fun f => baseSub f resFile)

/-- The pairing the matcher induces on whole file lists (each output paired
with its `matchHR` result, outputs without a match dropped). -/
def matchedPairs (resFiles hrFiles : List String) : List (String × String) :=
  resFiles.filterMap (fun r => (matchHR hrFiles r).map (fun g => (r, g)))

/-- Generic shape of the two metric calls guarded by one `try`:
`psnr(b, a, data_range=r1)` then `ssim(b, a, data_range=r2, channel_axis=2)`,
`none` when either raises (the `except` branch skips the pair). -/
def metricCallsO (env : Env) (b a : QImg) (r1 r2 : ℚ) : Option (ℚ × ℚ) :=
  match env.psnr b a r1 with
  | .error _ => none
  | .ok p =>
    match env.ssim b a r2 with
    | .error _ => none
    | .ok s => some (p, s)

/-- Lines 52-72 of `cal_metrics.py` for a pair of successfully decoded images:
shape reconciliation, division by 255, then
`psnr(img_hr, img_res, data_range=1.0)` and
`ssim(img_hr, img_res, data_range=1.0, channel_axis=2)` inside `try`,
skipping the pair when either raises. -/
def evalPairImgs (env : Env) (imgRes imgHr : Img) : Option (ℚ × ℚ) :=
  let imgRes2 := reconcileOut env imgRes imgHr
  let a := norm01 imgRes2
  let b := norm01 imgHr
  match env.psnr b a 1 with
  | .error _ => none
  | .ok p =>
    match env.ssim b a 1 with
    | .error _ => none
    | .ok s => some (p, s)

/-- The read-then-evaluate part of one loop iteration: `cv2.imread` of both
paths, skip (`continue`) when either is unreadable, else `evalPairImgs`. -/
def evalPair (env : Env) (resPath hrPath : String) : Option (ℚ × ℚ) :=
  match env.imread resPath, env.imread hrPath with
  | some imgRes, some imgHr => evalPairImgs env imgRes imgHr
  | _, _ => none

/-- Outcome of one successfully evaluated pair. -/
structure PairResult where
  resFile : String
  hrFile : String
  psnrV : ℚ
  ssimV : ℚ
  deriving DecidableEq

/-- One full iteration of the `for res_file in result_files` loop: `none`
exactly when the iteration appends nothing (no matching ground-truth file,
unreadable image, or a metric call raising). -/
def calStep (env : Env) (resultsDir hrDir : String) (hrFiles : List String)
    (resFile : String) : Option PairResult :=
  match matchHR hrFiles resFile with
  | none => none
  | some hrFile =>
    match evalPair env (joinPath resultsDir resFile) (joinPath hrDir hrFile) with
    | none => none
    | some ps => some ⟨resFile, hrFile, ps.1, ps.2⟩

/-- The per-pair loop, threading the `psnr_values` / `ssim_values`
accumulators exactly as the Python `append`s do. -/
def calLoop (env : Env) (resultsDir hrDir : String) (hrFiles : List String)
    (acc : List ℚ × List ℚ) : List String → List ℚ × List ℚ
  | [] => acc
  | f :: rest =>
    match calStep env resultsDir hrDir hrFiles f with
    | none => calLoop env resultsDir hrDir hrFiles acc rest
    | some pr =>
      calLoop env resultsDir hrDir hrFiles (acc.1 ++ [pr.psnrV], acc.2 ++ [pr.ssimV]) rest

/-- The successfully evaluated pairs of a run, in loop order. -/
def runPairs (env : Env) (resultsDir hrDir : String) (hrFiles resFiles : List String) :
    List PairResult :=
  resFiles.filterMap (calStep env resultsDir hrDir hrFiles)

/-- `sorted([f for f in os.listdir(d) if f.lower().endswith(('.png', '.jpg', '.jpeg'))])`. -/
def sortedImgFiles (entries : List String) : List String :=
  List.insertionSort strLe (entries.filter hasImgExt3)

/-- What a run of `cal_metrics.calculate_metrics` returns and reports: the two
value lists, plus the printed summary (`none` models the
"No valid metric values were calculated." branch, and also the early
`return [], []` when either directory scan comes back empty). -/
structure CalRun where
  psnrValues : List ℚ
  ssimValues : List ℚ
  summary : Option (ℚ × ℚ)
  deriving DecidableEq

/-- Lines 74-81 of `cal_metrics.py`: `if psnr_values and ssim_values:` print
the two `np.mean`s, else report that no valid values were calculated. -/
def calSummary (ps ss : List ℚ) : Option (ℚ × ℚ) :=
  if ps ≠ [] ∧ ss ≠ [] then some (mean ps, mean ss) else none

/-- `calculate_metrics(results_dir, hr_dir)` of `cal_metrics.py`. -/
def calculate_metrics (env : Env) (resultsDir hrDir : String) : CalRun :=
  let result_files := sortedImgFiles (env.listdir resultsDir)
  let hr_files := sortedImgFiles (env.listdir hrDir)
  if result_files = [] then ⟨[], [], none⟩
  else if hr_files = [] then ⟨[], [], none⟩
  else
    let vs := calLoop env resultsDir hrDir hr_files ([], []) result_files
    ⟨vs.1, vs.2, calSummary vs.1 vs.2⟩

/-! #### The `metrics_results.txt` artifact written by `__main__` -/

/-- Decimal digits of a natural number (most significant first). -/
def natDigits (n : Nat) : List Char :=
  (Nat.toDigits 10 n)

/-- Decimal rendering of a natural number. -/
def natStr (n : Nat) : String := ⟨natDigits n⟩

/-- Zero-pad the 4-digit fractional part. -/
def pad4 (n : Nat) : String :=
  let d := natDigits n
  ⟨List.replicate (4 - d.length) '0' ++ d⟩

/-- Fixed 4-decimal formatting, the model of Python `f"{x:.4f}"` (rounding of
the exact value to four decimal places; float-specific rounding is outside the
model). -/
def fmt4 (q : ℚ) : String :=
  (if q < 0 then "-" else "") ++
    natStr ((round (|q| * 10000)).toNat / 10000) ++ "." ++
    pad4 ((round (|q| * 10000)).toNat % 10000)

/-- The lines of `metrics_results.txt` exactly as `__main__` writes them:
a `PSNR,SSIM` header, one `psnr,ssim` line per `zip`ped value pair, then —
only when at least one pair succeeded — a blank line and the two average
lines. -/
def artifactLines (ps ss : List ℚ) : List String :=
  "PSNR,SSIM" :: ((ps.zip ss).map (fun v => fmt4 v.1 ++ "," ++ fmt4 v.2))
    ++ (if ps = [] then []
        else ["", "Average PSNR: " ++ fmt4 (mean ps) ++ " dB",
              "Average SSIM: " ++ fmt4 (mean ss)])

/-- The artifact as the spec describes it: one line per successfully evaluated
pair, a blank line, the two summary lines, and nothing else. -/
def claimedArtifactLines (ps ss : List ℚ) : List String :=
  ((ps.zip ss).map (fun v => fmt4 v.1 ++ "," ++ fmt4 v.2))
    ++ ["", "Average PSNR: " ++ fmt4 (mean ps) ++ " dB",
        "Average SSIM: " ++ fmt4 (mean ss)]

end CalMetrics

/-! ### `ESRGANplus/test_image/calculate_metrics.py` -/

namespace TestImage

open ESRGAN

/-- `validate_directories(output_dir, gt_dir)`: `FileNotFoundError` for an
absent directory (ground truth checked first), `ValueError` for a directory
whose listing has no recognized image extension, else the two filtered file
lists `(output_files, gt_files)`.  `Except.error` carries the exception
message. -/
def validate_directories (env : Env) (output_dir gt_dir : String) :
    Except String (List String × List String) :=
  if env.dirExists gt_dir = false then
    .error ("Ground truth directory not found: " ++ gt_dir)
  else if env.dirExists output_dir = false then
    .error ("Output directory not found: " ++ output_dir)
  else
    let gt_files := (env.listdir gt_dir).filter hasImgExt4
    let output_files := (env.listdir output_dir).filter hasImgExt4
    if gt_files = [] then
      .error ("No images found in ground truth directory: " ++ gt_dir)
    else if output_files = [] then
      .error ("No images found in output directory: " ++ output_dir)
    else .ok (output_files, gt_files)

/-- `sorted(set(output_files) & set(gt_files))`: the common file names, each
once, in lexicographic order. -/
def sortedCommon (output_files gt_files : List String) : List String :=
  List.insertionSort strLe ((output_files.filter (fun f => f ∈ gt_files)).dedup)

/-- Lines 62-73 for a pair of successfully decoded images: shape
reconciliation, `astype(np.float32)` (native 0-255 range), then
`psnr(img_gt, img_out, data_range=255)` and
`ssim(img_gt, img_out, data_range=255, channel_axis=2)` with NO surrounding
`try`: a raising metric call propagates (`.error`). -/
def evalPairImgs (env : Env) (imgOut imgGt : Img) : Except String (ℚ × ℚ) :=
  let imgOut2 := reconcileOut env imgOut imgGt
  let a := imgToQ imgOut2
  let b := imgToQ imgGt
  match env.psnr b a 255 with
  | .error e => .error e
  | .ok p =>
    match env.ssim b a 255 with
    | .error e => .error e
    | .ok s => .ok (p, s)

/-- Accumulated loop state: `psnr_values`, `ssim_values`, `processed_files`. -/
structure LoopOut where
  psnrValues : List ℚ
  ssimValues : List ℚ
  processedFiles : List String
  deriving DecidableEq

/-- The `for filename in sorted(common_files)` loop.  The second component is
the trace of `cv2.imread` calls actually attempted (both reads happen before
either `None` check).  An unreadable image skips the iteration
(`continue`); an exception from a metric call aborts the whole loop
(`.error`), so later files are neither decoded nor evaluated. -/
def tiLoop (env : Env) (output_dir gt_dir : String) :
    List String → Except String LoopOut × List String
  | [] => (.ok ⟨[], [], []⟩, [])
  | f :: rest =>
    let outPath := joinPath output_dir f
    let gtPath := joinPath gt_dir f
    match env.imread outPath, env.imread gtPath with
    | none, _ =>
      let r := tiLoop env output_dir gt_dir rest
      (r.1, outPath :: gtPath :: r.2)
    | some _, none =>
      let r := tiLoop env output_dir gt_dir rest
      (r.1, outPath :: gtPath :: r.2)
    | some imgOut, some imgGt =>
      match evalPairImgs env imgOut imgGt with
      | .error e => (.error e, [outPath, gtPath])
      | .ok v =>
        match tiLoop env output_dir gt_dir rest with
        | (.error e, t) => (.error e, outPath :: gtPath :: t)
        | (.ok lo, t) =>
          (.ok ⟨v.1 :: lo.psnrValues, v.2 :: lo.ssimValues, f :: lo.processedFiles⟩,
           outPath :: gtPath :: t)

/-- The dictionary `calculate_metrics` returns on success. -/
structure TIResult where
  psnr : ℚ
  ssim : ℚ
  psnr_values : List ℚ
  ssim_values : List ℚ
  processed_files : List String
  deriving DecidableEq

/-- `calculate_metrics(output_dir, gt_dir)` of
`test_image/calculate_metrics.py`.  The whole body sits in
`try: ... except Exception: return None`, so every raised error — from
`validate_directories`, the `common_files` check, a metric call inside the
loop, or the `No valid image pairs were processed` check — becomes `none`.
The second component is the trace of attempted `cv2.imread` calls. -/
def calculate_metrics (env : Env) (output_dir gt_dir : String) :
    Option TIResult × List String :=
  match validate_directories env output_dir gt_dir with
  | .error _ => (none, [])
  | .ok fs =>
    let common_files := sortedCommon fs.1 fs.2
    if common_files = [] then (none, [])
    else
      match tiLoop env output_dir gt_dir common_files with
      | (.error _, t) => (none, t)
      | (.ok lo, t) =>
        if lo.psnrValues = [] then (none, t)
        else
          (some ⟨mean lo.psnrValues, mean lo.ssimValues,
                 lo.psnrValues, lo.ssimValues, lo.processedFiles⟩, t)

end TestImage

/-! ### `ESRGANplus/calculate_metrics.py` (single-pair script) -/

namespace Single

open ESRGAN

/-- The body of `calculate_metrics(hr_path, sr_path)` after both images
decoded: `if hr_img.shape != sr_img.shape:` resize SR to HR's dimensions,
extract the Y channels, `cv2.PSNR(hr_img, sr_img)` on the color images (255
ceiling by default) and `ssim(hr_y, sr_y, data_range=255)` on the Y
channels. -/
def evalImgs (env : Env) (hr_img sr_img : Img) : Except String (ℚ × ℚ) :=
  let sr_img2 :=
    if hr_img.shape ≠ sr_img.shape then cvResize env sr_img hr_img.width hr_img.height
    else sr_img
  let hr_y := env.toY hr_img
  let sr_y := env.toY sr_img2
  let p := env.cvPSNR hr_img sr_img2 255
  match env.ssim (imgToQ hr_y) (imgToQ sr_y) 255 with
  | .error e => .error e
  | .ok s => .ok (p, s)

/-- `calculate_metrics(hr_path, sr_path)` of `ESRGANplus/calculate_metrics.py`:
raises `ValueError` when either image fails to load. -/
def calculate_metrics (env : Env) (hr_path sr_path : String) : Except String (ℚ × ℚ) :=
  match env.imread hr_path with
  | none => .error ("HR image not loaded: " ++ hr_path)
  | some hr_img =>
    match env.imread sr_path with
    | none => .error ("SR image not loaded: " ++ sr_path)
    | some sr_img => evalImgs env hr_img sr_img

end Single

/-! ### Generic metric-call combinators (for range-consistency statements) -/

/-- Two skimage metric calls on one shared pair of prepared images, with
separately supplied `data_range` arguments `r1` (PSNR) and `r2` (SSIM),
exceptions propagating. -/
def metricCallsE (env : Env) (b a : QImg) (r1 r2 : ℚ) : Except String (ℚ × ℚ) :=
  match env.psnr b a r1 with
  | .error e => .error e
  | .ok p =>
    match env.ssim b a r2 with
    | .error e => .error e
    | .ok s => .ok (p, s)

/-- The call pattern of the single-pair script: `cv2.PSNR` on the color
images with ceiling `r1`, skimage SSIM on the Y-channel images with
`data_range` `r2`. -/
def singleCalls (env : Env) (hrC srC : Img) (hrY srY : QImg) (r1 r2 : ℚ) :
    Except String (ℚ × ℚ) :=
  match env.ssim hrY srY r2 with
  | .error e => .error e
  | .ok s => .ok (env.cvPSNR hrC srC r1, s)

/-! ### Concrete witness environments and images -/

/-- A maximally permissive environment: every directory exists and is empty,
nothing decodes, metrics always succeed with constant values. -/
def trivEnv : Env where
  dirExists := fun _ => true
  listdir := fun _ => []
  imread := fun _ => none
  resizePix := fun pix _ _ _ => pix
  psnr := fun _ _ _ => .ok 30
  ssim := fun _ _ _ => .ok 1
  cvPSNR := fun _ _ _ => 30
  toY := fun i => ⟨i.height, i.width, 1, i.pix⟩

/-- A 4x4 3-channel image: smaller than SSIM's default 7x7 window. -/
def smallImgA : Img := ⟨4, 4, 3, List.replicate 48 7⟩

/-- Another 4x4 3-channel image. -/
def smallImgB : Img := ⟨4, 4, 3, List.replicate 48 9⟩

/-- An 8x8 3-channel image, large enough for the default SSIM window. -/
def bigImgA : Img := ⟨8, 8, 3, List.replicate 192 5⟩

/-- Another 8x8 3-channel image. -/
def bigImgB : Img := ⟨8, 8, 3, List.replicate 192 6⟩

/-- Environment for C2: both directories list `a.png` and `b.png`; the `a`
pair decodes to 4x4 images (on which `structural_similarity` raises, as
skimage does when the 7x7 window exceeds the image extent), the `b` pair to
8x8 images on which both metrics succeed; `out/d.png` decodes while
`gt/d.png` does not. -/
def ce2Env : Env where
  dirExists := fun _ => true
  listdir := fun _ => ["a.png", "b.png"]
  imread := fun p =>
    if p = "out/a.png" then some smallImgA
    else if p = "gt/a.png" then some smallImgB
    else if p = "out/b.png" then some bigImgA
    else if p = "gt/b.png" then some bigImgB
    else if p = "out/d.png" then some bigImgA
    else none
  resizePix := fun pix _ _ _ => pix
  psnr := fun _ _ _ => .ok 30
  ssim := fun _ a _ =>
    if a.height < 7 then .error "win_size exceeds image extent" else .ok 1
  cvPSNR := fun _ _ _ => 30
  toY := fun i => ⟨i.height, i.width, 1, i.pix⟩


/-- A 4x4 single-channel image (a hypothetical non-3-channel load, used to
exercise the channel-mismatch branch). -/
def tinyImg : Img := ⟨4, 4, 1, List.replicate 16 2⟩

/-- Environment for C4: decoding always yields the 3-channel `bigImgA`, and
the skimage metrics raise exactly when the two prepared arrays' shapes
differ (as `skimage`'s `check_shape_equality` does). -/
def c4Env : Env where
  dirExists := fun _ => true
  listdir := fun _ => []
  imread := fun _ => some bigImgA
  resizePix := fun pix _ _ _ => pix
  psnr := fun a b _ =>
    if QImg.shape a = QImg.shape b then .ok 30
    else .error "operands must have the same dimensions"
  ssim := fun a b _ =>
    if QImg.shape a = QImg.shape b then .ok 1
    else .error "operands must have the same dimensions"
  cvPSNR := fun _ _ _ => 30
  toY := fun i => ⟨i.height, i.width, 1, i.pix⟩

/-- Environment for C5: five matching pairs `p1.png` … `p5.png`, of which
`res/p3.png` fails to decode; metrics succeed with constant values 30 / 1. -/
def c5Env : Env where
  dirExists := fun _ => true
  listdir := fun _ => ["p1.png", "p2.png", "p3.png", "p4.png", "p5.png"]
  imread := fun p => if p = "res/p3.png" then none else some bigImgA
  resizePix := fun pix _ _ _ => pix
  psnr := fun _ _ _ => .ok 30
  ssim := fun _ _ _ => .ok 1
  cvPSNR := fun _ _ _ => 30
  toY := fun i => ⟨i.height, i.width, 1, i.pix⟩

/-- Environment for C6: the directories exist but hold no file with a
recognized image extension. -/
def c6Env : Env where
  dirExists := fun _ => true
  listdir := fun _ => ["readme.txt", "x.gif"]
  imread := fun _ => none
  resizePix := fun pix _ _ _ => pix
  psnr := fun _ _ _ => .ok 30
  ssim := fun _ _ _ => .ok 1
  cvPSNR := fun _ _ _ => 30
  toY := fun i => ⟨i.height, i.width, 1, i.pix⟩

/-- Environment for C7/C10: only the directory named `out` exists. -/
def c7Env : Env :=
  { trivEnv with dirExists := fun d => d == "out" }

/-! ### Helper lemmas -/

theorem hasImgExt3_imp (f : String) (h : hasImgExt3 f = true) : hasImgExt4 f = true := by
  simp only [hasImgExt3, Bool.or_eq_true] at h
  simp only [hasImgExt4, Bool.or_eq_true]
  tauto

theorem strLtB_self (l : List Char) : strLtB l l = false := by
  induction l with
  | nil => rfl
  | cons a as ih => simp [strLtB, ih]

theorem strLe_refl (s : String) : strLe s s := by
  simp [strLe, strLeB, strLtB_self]

/-- `List.find?` on a `strLe`-sorted list returns a lexicographically least
element among those satisfying the predicate. -/
theorem find?_sorted_least {p : String → Bool} :
    ∀ {l : List String}, l.Sorted strLe → ∀ {a : String}, l.find? p = some a →
      ∀ b ∈ l, p b = true → strLe a b := by
  intro l
  induction l with
  | nil => intro _ a h; simp [List.find?] at h
  | cons x xs ih =>
    intro hs a hfind b hb hpb
    rw [List.sorted_cons] at hs
    by_cases hx : p x = true
    · rw [List.find?_cons_of_pos _ hx] at hfind
      cases hfind
      rcases List.mem_cons.mp hb with rfl | hb
      · exact strLe_refl _
      · exact hs.1 _ hb
    · rw [List.find?_cons_of_neg _ (by simpa using hx)] at hfind
      rcases List.mem_cons.mp hb with rfl | hb
      · exact absurd hpb hx
      · exact ih hs.2 hfind b hb hpb

/-! ### C1 -/

/-- C1: for every non-empty sorted output list and non-empty sorted
ground-truth list, the basename-substring matcher of `cal_metrics.py` pairs
each output file with the first — hence lexicographically least —
ground-truth file whose extension-stripped base name is a substring of the
output's extension-stripped base name, leaves the output unmatched when no
ground-truth base name is such a substring, and on outputs
`0830_x4.png`, `0901_x4.png` with ground truth `0830.png`, `0901.png`
produces exactly the pairs (`0830_x4.png`, `0830.png`) and
(`0901_x4.png`, `0901.png`). -/
theorem C1_basename_substring_matching
    (resFiles hrFiles : List String) (hres : resFiles ≠ []) (hhr : hrFiles ≠ [])
    (hsorted : hrFiles.Sorted strLe) (r : String) (hmem : r ∈ resFiles) :
    ((∀ g, CalMetrics.matchHR hrFiles r = some g →
        g ∈ hrFiles ∧ CalMetrics.baseSub g r = true ∧
          ∀ g' ∈ hrFiles, CalMetrics.baseSub g' r = true → strLe g g') ∧
      (CalMetrics.matchHR hrFiles r = none →
        ∀ g ∈ hrFiles, CalMetrics.baseSub g r = false)) ∧
    (CalMetrics.matchHR ["0830.png", "0901.png"] "0830_x4.png" = some "0830.png" ∧
      CalMetrics.matchHR ["0830.png", "0901.png"] "0901_x4.png" = some "0901.png" ∧
      CalMetrics.matchedPairs ["0830_x4.png", "0901_x4.png"] ["0830.png", "0901.png"] =
        [("0830_x4.png", "0830.png"), ("0901_x4.png", "0901.png")]) := by
  refine ⟨⟨?_, ?_⟩, by decide, by decide, by decide⟩
  · intro g hg
    have hg' : hrFiles.find? (fun f => CalMetrics.baseSub f r) = some g := hg
    have hpg := List.find?_some hg'
    exact ⟨List.mem_of_find?_eq_some hg', by simpa using hpg,
      find?_sorted_least hsorted hg'⟩
  · intro hnone g hgmem
    have hnone' : hrFiles.find? (fun f => CalMetrics.baseSub f r) = none := hnone
    have := List.find?_eq_none.mp hnone' g hgmem
    simpa using this

/-- Witness for C1 at the spec's example inputs. -/
theorem C1_basename_substring_matching_witness :
    ((["0830_x4.png", "0901_x4.png"] : List String) ≠ [] ∧
      (["0830.png", "0901.png"] : List String) ≠ [] ∧
      (["0830.png", "0901.png"] : List String).Sorted strLe ∧
      "0830_x4.png" ∈ (["0830_x4.png", "0901_x4.png"] : List String)) ∧
    (((∀ g, CalMetrics.matchHR ["0830.png", "0901.png"] "0830_x4.png" = some g →
        g ∈ (["0830.png", "0901.png"] : List String) ∧
          CalMetrics.baseSub g "0830_x4.png" = true ∧
          ∀ g' ∈ (["0830.png", "0901.png"] : List String),
            CalMetrics.baseSub g' "0830_x4.png" = true → strLe g g') ∧
      (CalMetrics.matchHR ["0830.png", "0901.png"] "0830_x4.png" = none →
        ∀ g ∈ (["0830.png", "0901.png"] : List String),
          CalMetrics.baseSub g "0830_x4.png" = false)) ∧
    (CalMetrics.matchHR ["0830.png", "0901.png"] "0830_x4.png" = some "0830.png" ∧
      CalMetrics.matchHR ["0830.png", "0901.png"] "0901_x4.png" = some "0901.png" ∧
      CalMetrics.matchedPairs ["0830_x4.png", "0901_x4.png"] ["0830.png", "0901.png"] =
        [("0830_x4.png", "0830.png"), ("0901_x4.png", "0901.png")])) :=
  ⟨⟨by decide, by decide, by decide, by decide⟩,
    C1_basename_substring_matching ["0830_x4.png", "0901_x4.png"] ["0830.png", "0901.png"]
      (by decide) (by decide) (by decide) "0830_x4.png" (by decide)⟩

/-! ### C2 -/

/-- The per-pair loop of `cal_metrics.py` only ever appends: its result is the
accumulator extended with the values of the successfully evaluated pairs. -/
theorem calLoop_eq (env : Env) (resultsDir hrDir : String) (hrFiles : List String) :
    ∀ (files : List String) (acc : List ℚ × List ℚ),
      CalMetrics.calLoop env resultsDir hrDir hrFiles acc files =
        (acc.1 ++ (CalMetrics.runPairs env resultsDir hrDir hrFiles files).map
            CalMetrics.PairResult.psnrV,
         acc.2 ++ (CalMetrics.runPairs env resultsDir hrDir hrFiles files).map
            CalMetrics.PairResult.ssimV) := by
  intro files
  induction files with
  | nil => intro acc; simp [CalMetrics.calLoop, CalMetrics.runPairs]
  | cons f rest ih =>
    intro acc
    cases h : CalMetrics.calStep env resultsDir hrDir hrFiles f with
    | none => simp [CalMetrics.calLoop, CalMetrics.runPairs, List.filterMap_cons, h, ih]
    | some pr => simp [CalMetrics.calLoop, CalMetrics.runPairs, List.filterMap_cons, h, ih]

/-- C2 counterexample: in `test_image/calculate_metrics.py` the metric calls
are NOT guarded by a per-pair `try`, so an error raised by the metric
computation on the first pair propagates out of the loop into the outer
handler: the run returns `None` and the perfectly evaluable remaining pair
`b.png` is never evaluated — its images are not even decoded (the `imread`
trace stops after `a`'s two reads). -/
theorem C2_counterexample :
    TestImage.calculate_metrics ce2Env "out" "gt" =
        (none, ["out/a.png", "gt/a.png"]) ∧
      TestImage.evalPairImgs ce2Env bigImgA bigImgB = .ok (30, 1) := by
  constructor <;> rfl

/-- C2 (amended): in `cal_metrics.py` every per-pair failure — no matching
ground-truth file, an unreadable image, or a metric call raising — is skipped
and all remaining pairs are still evaluated; in
`test_image/calculate_metrics.py` this holds for unreadable images (either
side), but an error raised by a metric computation ends the per-pair loop at
that pair and is only caught by the function's outer handler. -/
theorem C2_per_pair_failure_handling (env : Env) (resultsDir hrDir : String)
    (hrFiles : List String) (acc : List ℚ × List ℚ) (xs ys rest : List String)
    (bad f g : String) :
    (CalMetrics.calStep env resultsDir hrDir hrFiles bad = none →
      CalMetrics.calLoop env resultsDir hrDir hrFiles acc (xs ++ bad :: ys) =
        CalMetrics.calLoop env resultsDir hrDir hrFiles acc (xs ++ ys)) ∧
    (env.imread (joinPath resultsDir f) = none →
      (TestImage.tiLoop env resultsDir hrDir (f :: rest)).1 =
        (TestImage.tiLoop env resultsDir hrDir rest).1) ∧
    (∀ imgOut, env.imread (joinPath resultsDir f) = some imgOut →
      env.imread (joinPath hrDir f) = none →
      (TestImage.tiLoop env resultsDir hrDir (f :: rest)).1 =
        (TestImage.tiLoop env resultsDir hrDir rest).1) ∧
    (∀ imgOut imgGt e, env.imread (joinPath resultsDir g) = some imgOut →
      env.imread (joinPath hrDir g) = some imgGt →
      TestImage.evalPairImgs env imgOut imgGt = .error e →
      TestImage.tiLoop env resultsDir hrDir (g :: rest) =
        (.error e, [joinPath resultsDir g, joinPath hrDir g])) := by
  refine ⟨?_, ?_, ?_, ?_⟩
  · intro h
    simp [calLoop_eq, CalMetrics.runPairs, List.filterMap_append, List.filterMap_cons, h]
  · intro h
    simp [TestImage.tiLoop, h]
  · intro imgOut h1 h2
    simp [TestImage.tiLoop, h1, h2]
  · intro imgOut imgGt e h1 h2 h3
    simp [TestImage.tiLoop, h1, h2, h3]

/-- Witness for C2's amended theorem: concrete skips in `cal_metrics.py`'s
loop and in `test_image`'s loop for unreadable images, and the concrete
run-abort for a metric error. -/
theorem C2_per_pair_failure_handling_witness :
    (CalMetrics.calStep ce2Env "out" "gt" ["zzz.png"] "a.png" = none ∧
      CalMetrics.calLoop ce2Env "out" "gt" ["zzz.png"] ([], [])
          (["b.png"] ++ "a.png" :: ["b.png"]) =
        CalMetrics.calLoop ce2Env "out" "gt" ["zzz.png"] ([], []) (["b.png"] ++ ["b.png"])) ∧
    (ce2Env.imread (joinPath "out" "c.png") = none ∧
      (TestImage.tiLoop ce2Env "out" "gt" ("c.png" :: ["b.png"])).1 =
        (TestImage.tiLoop ce2Env "out" "gt" ["b.png"]).1) ∧
    (ce2Env.imread (joinPath "out" "d.png") = some bigImgA ∧
      ce2Env.imread (joinPath "gt" "d.png") = none ∧
      (TestImage.tiLoop ce2Env "out" "gt" ("d.png" :: ["b.png"])).1 =
        (TestImage.tiLoop ce2Env "out" "gt" ["b.png"]).1) ∧
    (TestImage.evalPairImgs ce2Env smallImgA smallImgB =
        .error "win_size exceeds image extent" ∧
      TestImage.tiLoop ce2Env "out" "gt" ("a.png" :: ["b.png"]) =
        (.error "win_size exceeds image extent",
          [joinPath "out" "a.png", joinPath "gt" "a.png"])) := by
  have h := C2_per_pair_failure_handling ce2Env "out" "gt" ["zzz.png"] ([], [])
    ["b.png"] ["b.png"] ["b.png"] "a.png" "c.png" "a.png"
  have hd := C2_per_pair_failure_handling ce2Env "out" "gt" ["zzz.png"] ([], [])
    ["b.png"] ["b.png"] ["b.png"] "a.png" "d.png" "a.png"
  exact ⟨⟨by rfl, h.1 (by rfl)⟩,
    ⟨by rfl, h.2.1 (by rfl)⟩,
    ⟨by rfl, by rfl, hd.2.2.1 bigImgA (by rfl) (by rfl)⟩,
    ⟨by rfl, h.2.2.2 smallImgA smallImgB "win_size exceeds image extent"
      (by rfl) (by rfl) (by rfl)⟩⟩

/-! ### C3 -/

/-- C3: in each script, both images of a pair go through one and the same
numeric conversion, and one fixed value range is passed to both the PSNR and
the SSIM call of every pair of the run: `cal_metrics.py` divides both images
by 255 and passes `data_range` 1 to both calls; `test_image` converts both to
float keeping native values and passes 255 to both; the single-pair script
keeps both images 8-bit and uses ceiling 255 for both `cv2.PSNR` and SSIM.
Moreover the conversions match the claimed ranges: on 8-bit samples the
`/255` conversion lands in `[0,1]` and the native conversion in `[0,255]`. -/
theorem C3_uniform_normalization_and_range (env : Env)
    (imgRes imgHr imgOut imgGt hr_img sr_img : Img) :
    (CalMetrics.evalPairImgs env imgRes imgHr =
        CalMetrics.metricCallsO env (norm01 imgHr)
          (norm01 (reconcileOut env imgRes imgHr)) 1 1) ∧
    (TestImage.evalPairImgs env imgOut imgGt =
        metricCallsE env (imgToQ imgGt)
          (imgToQ (reconcileOut env imgOut imgGt)) 255 255) ∧
    (Single.evalImgs env hr_img sr_img =
        singleCalls env hr_img (reconcileOut env sr_img hr_img)
          (imgToQ (env.toY hr_img))
          (imgToQ (env.toY (reconcileOut env sr_img hr_img))) 255 255) ∧
    (∀ i : Img, i.eightBit →
      (∀ v ∈ (norm01 i).pix, 0 ≤ v ∧ v ≤ 1) ∧
      (∀ v ∈ (imgToQ i).pix, 0 ≤ v ∧ v ≤ 255)) := by
  refine ⟨rfl, rfl, ?_, ?_⟩
  · by_cases h : hr_img.shape = sr_img.shape
    · simp [Single.evalImgs, singleCalls, reconcileOut, h]
    · simp [Single.evalImgs, singleCalls, reconcileOut, h, Ne.symm h]
  · intro i h8
    constructor
    · intro v hv
      have hv' : v ∈ i.pix.map (fun (w : Nat) => (w : ℚ) / 255) := hv
      obtain ⟨w, hw, hwv⟩ := List.mem_map.mp hv'
      subst hwv
      refine ⟨div_nonneg (Nat.cast_nonneg w) (by norm_num), ?_⟩
      rw [div_le_one (by norm_num)]
      exact_mod_cast h8 w hw
    · intro v hv
      have hv' : v ∈ i.pix.map (fun (w : Nat) => (w : ℚ)) := hv
      obtain ⟨w, hw, hwv⟩ := List.mem_map.mp hv'
      subst hwv
      exact ⟨Nat.cast_nonneg w, by exact_mod_cast h8 w hw⟩

/-- Witness for C3 at concrete images and a concrete environment. -/
theorem C3_uniform_normalization_and_range_witness :
    smallImgA.eightBit ∧
    ((∀ v ∈ (norm01 smallImgA).pix, 0 ≤ v ∧ v ≤ 1) ∧
      (∀ v ∈ (imgToQ smallImgA).pix, 0 ≤ v ∧ v ≤ 255)) ∧
    CalMetrics.evalPairImgs trivEnv smallImgA smallImgB =
      CalMetrics.metricCallsO trivEnv (norm01 smallImgB)
        (norm01 (reconcileOut trivEnv smallImgA smallImgB)) 1 1 ∧
    TestImage.evalPairImgs trivEnv smallImgA smallImgB =
      metricCallsE trivEnv (imgToQ smallImgB)
        (imgToQ (reconcileOut trivEnv smallImgA smallImgB)) 255 255 ∧
    Single.evalImgs trivEnv bigImgA smallImgA =
      singleCalls trivEnv bigImgA (reconcileOut trivEnv smallImgA bigImgA)
        (imgToQ (trivEnv.toY bigImgA))
        (imgToQ (trivEnv.toY (reconcileOut trivEnv smallImgA bigImgA))) 255 255 := by
  have h := C3_uniform_normalization_and_range trivEnv smallImgA smallImgB
    smallImgA smallImgB bigImgA smallImgA
  exact ⟨by decide, h.2.2.2 smallImgA (by decide), h.1, h.2.1, h.2.2.1⟩

/-! ### C4 -/

/-- C4: whenever the two loaded images' spatial dimensions differ, the output
image is resized to the ground truth's `(height, width)` (keeping its own
channel count) — the reconciliation step of all three scripts never touches
the ground-truth image (the `Single` variant's `hr != sr` test is the same
reconciliation with the output resized); under the library fact that the
skimage metrics raise on mismatched array shapes, a channel-count mismatch
surviving the load makes the pair a recorded failure in `cal_metrics.py`
(`none`, no coerced values); and since `cv2.imread`'s default decode always
yields 3-channel data, two successfully loaded images can never differ in
channel count in the first place. -/
theorem C4_resize_policy_and_channels (env : Env) (o g hr_img sr_img : Img)
    (hraise : ∀ a b r, QImg.shape a ≠ QImg.shape b → ∃ e, env.psnr a b r = .error e)
    (h3 : ∀ p i, env.imread p = some i → i.channels = 3) :
    ((o.height, o.width) ≠ (g.height, g.width) →
      reconcileOut env o g = cvResize env o g.width g.height ∧
      (reconcileOut env o g).height = g.height ∧
      (reconcileOut env o g).width = g.width ∧
      (reconcileOut env o g).channels = o.channels) ∧
    ((if hr_img.shape ≠ sr_img.shape then
        cvResize env sr_img hr_img.width hr_img.height
      else sr_img) = reconcileOut env sr_img hr_img) ∧
    (o.channels ≠ g.channels → CalMetrics.evalPairImgs env o g = none) ∧
    (∀ p q io ig, env.imread p = some io → env.imread q = some ig →
      io.channels = ig.channels) := by
  refine ⟨?_, ?_, ?_, ?_⟩
  · intro hsp
    have hne : o.shape ≠ g.shape := by
      intro hc
      apply hsp
      simp only [Img.shape, Prod.mk.injEq] at hc
      simp [hc.1, hc.2.1]
    refine ⟨by simp [reconcileOut, hne], ?_, ?_, ?_⟩ <;>
      simp [reconcileOut, hne, cvResize]
  · by_cases h : hr_img.shape = sr_img.shape
    · simp [reconcileOut, h]
    · simp [reconcileOut, h, Ne.symm h]
  · intro hch
    have hcr : (reconcileOut env o g).channels = o.channels := by
      by_cases h : o.shape = g.shape
      · simp [reconcileOut, h]
      · simp [reconcileOut, h, cvResize]
    have hshape : QImg.shape (norm01 g) ≠ QImg.shape (norm01 (reconcileOut env o g)) := by
      intro hc
      apply hch
      simp only [QImg.shape, norm01, Prod.mk.injEq] at hc
      rw [hcr] at hc
      exact hc.2.2.symm
    obtain ⟨e, he⟩ := hraise (norm01 g) (norm01 (reconcileOut env o g)) 1 hshape
    simp [CalMetrics.evalPairImgs, he]
  · intro p q io ig hio hig
    rw [h3 p io hio, h3 q ig hig]

/-- Witness for C4 at concrete images (4x4 1-channel output against 8x8
3-channel ground truth) in an environment whose metrics raise on shape
mismatches. -/
theorem C4_resize_policy_and_channels_witness :
    ((tinyImg.height, tinyImg.width) ≠ (bigImgA.height, bigImgA.width) ∧
      tinyImg.channels ≠ bigImgA.channels) ∧
    ((reconcileOut c4Env tinyImg bigImgA).height = bigImgA.height ∧
      (reconcileOut c4Env tinyImg bigImgA).width = bigImgA.width ∧
      (reconcileOut c4Env tinyImg bigImgA).channels = tinyImg.channels) ∧
    CalMetrics.evalPairImgs c4Env tinyImg bigImgA = none := by
  have h := C4_resize_policy_and_channels c4Env tinyImg bigImgA bigImgA tinyImg
    (fun a b r hne => ⟨"operands must have the same dimensions", by simp [c4Env, hne]⟩)
    (fun p i hp => by injection hp with h2; rw [← h2]; rfl)
  have h1 := h.1 (by decide)
  exact ⟨⟨by decide, by decide⟩, ⟨h1.2.1, h1.2.2.1, h1.2.2.2⟩, h.2.2.1 (by decide)⟩

/-! ### C5 -/

/-- C5: in `cal_metrics.py` the two value lists of a run are exactly the
per-pair values of the successfully evaluated pairs, the reported averages are
the `np.mean`s of those lists — so failed pairs are excluded from the means —
and with zero successful pairs the run reports the no-valid-values outcome
(`summary = none`) instead of crashing. -/
theorem C5_summary_means_over_successes (env : Env) (resultsDir hrDir : String)
    (hres : CalMetrics.sortedImgFiles (env.listdir resultsDir) ≠ [])
    (hhr : CalMetrics.sortedImgFiles (env.listdir hrDir) ≠ []) :
    (CalMetrics.calculate_metrics env resultsDir hrDir).psnrValues =
        (CalMetrics.runPairs env resultsDir hrDir
            (CalMetrics.sortedImgFiles (env.listdir hrDir))
            (CalMetrics.sortedImgFiles (env.listdir resultsDir))).map
          CalMetrics.PairResult.psnrV ∧
    (CalMetrics.calculate_metrics env resultsDir hrDir).ssimValues =
        (CalMetrics.runPairs env resultsDir hrDir
            (CalMetrics.sortedImgFiles (env.listdir hrDir))
            (CalMetrics.sortedImgFiles (env.listdir resultsDir))).map
          CalMetrics.PairResult.ssimV ∧
    (CalMetrics.runPairs env resultsDir hrDir
        (CalMetrics.sortedImgFiles (env.listdir hrDir))
        (CalMetrics.sortedImgFiles (env.listdir resultsDir)) = [] →
      (CalMetrics.calculate_metrics env resultsDir hrDir).summary = none) ∧
    (CalMetrics.runPairs env resultsDir hrDir
        (CalMetrics.sortedImgFiles (env.listdir hrDir))
        (CalMetrics.sortedImgFiles (env.listdir resultsDir)) ≠ [] →
      (CalMetrics.calculate_metrics env resultsDir hrDir).summary =
        some (mean ((CalMetrics.runPairs env resultsDir hrDir
            (CalMetrics.sortedImgFiles (env.listdir hrDir))
            (CalMetrics.sortedImgFiles (env.listdir resultsDir))).map
              CalMetrics.PairResult.psnrV),
          mean ((CalMetrics.runPairs env resultsDir hrDir
            (CalMetrics.sortedImgFiles (env.listdir hrDir))
            (CalMetrics.sortedImgFiles (env.listdir resultsDir))).map
              CalMetrics.PairResult.ssimV))) := by
  have hcm : CalMetrics.calculate_metrics env resultsDir hrDir =
      ⟨(CalMetrics.runPairs env resultsDir hrDir
          (CalMetrics.sortedImgFiles (env.listdir hrDir))
          (CalMetrics.sortedImgFiles (env.listdir resultsDir))).map
            CalMetrics.PairResult.psnrV,
        (CalMetrics.runPairs env resultsDir hrDir
          (CalMetrics.sortedImgFiles (env.listdir hrDir))
          (CalMetrics.sortedImgFiles (env.listdir resultsDir))).map
            CalMetrics.PairResult.ssimV,
        CalMetrics.calSummary
          ((CalMetrics.runPairs env resultsDir hrDir
            (CalMetrics.sortedImgFiles (env.listdir hrDir))
            (CalMetrics.sortedImgFiles (env.listdir resultsDir))).map
              CalMetrics.PairResult.psnrV)
          ((CalMetrics.runPairs env resultsDir hrDir
            (CalMetrics.sortedImgFiles (env.listdir hrDir))
            (CalMetrics.sortedImgFiles (env.listdir resultsDir))).map
              CalMetrics.PairResult.ssimV)⟩ := by
    simp only [CalMetrics.calculate_metrics, if_neg hres, if_neg hhr]
    rw [calLoop_eq]
    simp
  rw [hcm]
  refine ⟨rfl, rfl, ?_, ?_⟩
  · intro hempty
    rw [hempty]
    simp [CalMetrics.calSummary]
  · intro hne
    have h1 : (CalMetrics.runPairs env resultsDir hrDir
        (CalMetrics.sortedImgFiles (env.listdir hrDir))
        (CalMetrics.sortedImgFiles (env.listdir resultsDir))).map
          CalMetrics.PairResult.psnrV ≠ [] := by simpa using hne
    have h2 : (CalMetrics.runPairs env resultsDir hrDir
        (CalMetrics.sortedImgFiles (env.listdir hrDir))
        (CalMetrics.sortedImgFiles (env.listdir resultsDir))).map
          CalMetrics.PairResult.ssimV ≠ [] := by simpa using hne
    simp [CalMetrics.calSummary, h1, h2]

/-- Witness for C5: five matched pairs with one unreadable file; the run
completes, the four successes are `p1, p2, p4, p5`, and the summary is the
mean over those four values only. -/
theorem C5_summary_means_over_successes_witness :
    (CalMetrics.sortedImgFiles (c5Env.listdir "res") ≠ [] ∧
      CalMetrics.sortedImgFiles (c5Env.listdir "hr") ≠ []) ∧
    (CalMetrics.runPairs c5Env "res" "hr"
        (CalMetrics.sortedImgFiles (c5Env.listdir "hr"))
        (CalMetrics.sortedImgFiles (c5Env.listdir "res"))).map
      CalMetrics.PairResult.resFile = ["p1.png", "p2.png", "p4.png", "p5.png"] ∧
    (CalMetrics.calculate_metrics c5Env "res" "hr").summary =
      some (mean [30, 30, 30, 30], mean [1, 1, 1, 1]) ∧
    (CalMetrics.calculate_metrics c5Env "res" "hr").summary = some (30, 1) := by
  have hmap : (CalMetrics.runPairs c5Env "res" "hr"
      (CalMetrics.sortedImgFiles (c5Env.listdir "hr"))
      (CalMetrics.sortedImgFiles (c5Env.listdir "res"))).map
        CalMetrics.PairResult.resFile = ["p1.png", "p2.png", "p4.png", "p5.png"] := by rfl
  have hne : CalMetrics.runPairs c5Env "res" "hr"
      (CalMetrics.sortedImgFiles (c5Env.listdir "hr"))
      (CalMetrics.sortedImgFiles (c5Env.listdir "res")) ≠ [] := by
    intro h
    rw [h] at hmap
    simp at hmap
  have h := (C5_summary_means_over_successes c5Env "res" "hr"
    (by decide) (by decide)).2.2.2 hne
  have hp : (CalMetrics.runPairs c5Env "res" "hr"
      (CalMetrics.sortedImgFiles (c5Env.listdir "hr"))
      (CalMetrics.sortedImgFiles (c5Env.listdir "res"))).map
        CalMetrics.PairResult.psnrV = [30, 30, 30, 30] := by rfl
  have hs : (CalMetrics.runPairs c5Env "res" "hr"
      (CalMetrics.sortedImgFiles (c5Env.listdir "hr"))
      (CalMetrics.sortedImgFiles (c5Env.listdir "res"))).map
        CalMetrics.PairResult.ssimV = [1, 1, 1, 1] := by rfl
  rw [hp, hs] at h
  refine ⟨⟨by decide, by decide⟩, hmap, h, ?_⟩
  rw [h]
  norm_num [mean, List.sum_cons, List.sum_nil]

/-! ### C6 -/

/-- C6: scanning a listing with no recognized image extension is a total
computation returning the empty list — never an error — and what happens next
is the caller's decision: `cal_metrics.calculate_metrics` treats it as a
non-fatal empty result (`([], [])`, no summary), while `test_image`'s
`validate_directories` chooses to treat it as fatal and raises. -/
theorem C6_empty_scan_non_fatal (env : Env) (resultsDir hrDir outputDir gtDir : String)
    (entries : List String) (hnone : ∀ f ∈ entries, hasImgExt4 f = false) :
    (entries.filter hasImgExt3 = [] ∧ entries.filter hasImgExt4 = []) ∧
    (env.listdir resultsDir = entries →
      CalMetrics.calculate_metrics env resultsDir hrDir = ⟨[], [], none⟩) ∧
    (env.listdir hrDir = entries →
      CalMetrics.calculate_metrics env resultsDir hrDir = ⟨[], [], none⟩) ∧
    (env.dirExists gtDir = true → env.dirExists outputDir = true →
      env.listdir gtDir = entries →
      TestImage.validate_directories env outputDir gtDir =
        .error ("No images found in ground truth directory: " ++ gtDir)) := by
  have h4 : entries.filter hasImgExt4 = [] := by
    rw [List.filter_eq_nil_iff]
    intro a ha
    simp [hnone a ha]
  have h3f : entries.filter hasImgExt3 = [] := by
    rw [List.filter_eq_nil_iff]
    intro a ha hc
    have h34 := hasImgExt3_imp a hc
    rw [hnone a ha] at h34
    cases h34
  refine ⟨⟨h3f, h4⟩, ?_, ?_, ?_⟩
  · intro hld
    simp [CalMetrics.calculate_metrics, CalMetrics.sortedImgFiles, hld, h3f]
  · intro hld
    by_cases hres : CalMetrics.sortedImgFiles (env.listdir resultsDir) = []
    · simp [CalMetrics.calculate_metrics, hres]
    · simp [CalMetrics.calculate_metrics, hres, CalMetrics.sortedImgFiles, hld, h3f]
  · intro hg ho hld
    simp [TestImage.validate_directories, hg, ho, hld, h4]

/-- Witness for C6 on a listing of `readme.txt` and `x.gif`. -/
theorem C6_empty_scan_non_fatal_witness :
    (∀ f ∈ (["readme.txt", "x.gif"] : List String), hasImgExt4 f = false) ∧
    ((["readme.txt", "x.gif"] : List String).filter hasImgExt3 = [] ∧
      (["readme.txt", "x.gif"] : List String).filter hasImgExt4 = []) ∧
    CalMetrics.calculate_metrics c6Env "res" "hr" = ⟨[], [], none⟩ ∧
    TestImage.validate_directories c6Env "out" "gt" =
      .error ("No images found in ground truth directory: " ++ "gt") := by
  have h := C6_empty_scan_non_fatal c6Env "res" "hr" "out" "gt"
    ["readme.txt", "x.gif"] (by decide)
  exact ⟨by decide, h.1, h.2.1 rfl, h.2.2.2 rfl rfl rfl⟩

/-! ### C7 -/

/-- C7: when an input directory does not exist (the ground-truth check runs
first, then the output check), `test_image/calculate_metrics.py` raises
`FileNotFoundError` with a directory-not-found message inside
`validate_directories`, the run immediately returns `None`, and the empty
`imread` trace shows that no image decode was ever attempted. -/
theorem C7_fail_fast_missing_directory (env : Env) (output_dir gt_dir : String) :
    (env.dirExists gt_dir = false →
      TestImage.validate_directories env output_dir gt_dir =
          .error ("Ground truth directory not found: " ++ gt_dir) ∧
        TestImage.calculate_metrics env output_dir gt_dir = (none, [])) ∧
    (env.dirExists gt_dir = true → env.dirExists output_dir = false →
      TestImage.validate_directories env output_dir gt_dir =
          .error ("Output directory not found: " ++ output_dir) ∧
        TestImage.calculate_metrics env output_dir gt_dir = (none, [])) := by
  constructor
  · intro hg
    have hv : TestImage.validate_directories env output_dir gt_dir =
        .error ("Ground truth directory not found: " ++ gt_dir) := by
      simp [TestImage.validate_directories, hg]
    exact ⟨hv, by simp [TestImage.calculate_metrics, hv]⟩
  · intro hg ho
    have hv : TestImage.validate_directories env output_dir gt_dir =
        .error ("Output directory not found: " ++ output_dir) := by
      simp [TestImage.validate_directories, hg, ho]
    exact ⟨hv, by simp [TestImage.calculate_metrics, hv]⟩

/-- Witness for C7: a missing ground-truth directory. -/
theorem C7_fail_fast_missing_directory_witness :
    c7Env.dirExists "gt" = false ∧
    TestImage.validate_directories c7Env "out" "gt" =
      .error ("Ground truth directory not found: " ++ "gt") ∧
    TestImage.calculate_metrics c7Env "out" "gt" = (none, []) := by
  have h := (C7_fail_fast_missing_directory c7Env "out" "gt").1 (by decide)
  exact ⟨by decide, h.1, h.2⟩

/-! ### C8 -/

/-- Evaluation rule for the 4-decimal formatter on a non-negative value. -/
theorem fmt4_of_nonneg {q : ℚ} {n : ℤ} (h0 : 0 ≤ q) (hr : round (|q| * 10000) = n) :
    CalMetrics.fmt4 q =
      "" ++ CalMetrics.natStr (n.toNat / 10000) ++ "." ++
        CalMetrics.pad4 (n.toNat % 10000) := by
  unfold CalMetrics.fmt4
  rw [if_neg (not_lt.mpr h0), hr]

/-- C8 counterexample: the artifact `__main__` writes does not consist of the
per-pair lines, blank line and summary lines alone.  At one successful pair
of values (30, 1) its first line is the header `PSNR,SSIM`, which the claim's
"and nothing else" excludes; and at zero successful pairs the artifact is the
header line alone — the blank line and the two summary lines the claim
requires are absent. -/
theorem C8_counterexample :
    (CalMetrics.artifactLines [30] [1] =
        ["PSNR,SSIM", "30.0000,1.0000", "", "Average PSNR: 30.0000 dB",
          "Average SSIM: 1.0000"] ∧
      CalMetrics.artifactLines [30] [1] ≠ CalMetrics.claimedArtifactLines [30] [1]) ∧
    (CalMetrics.artifactLines [] [] = ["PSNR,SSIM"] ∧
      CalMetrics.artifactLines [] [] ≠ CalMetrics.claimedArtifactLines [] []) := by
  have hm30 : mean [30] = (30 : ℚ) := by
    norm_num [mean, List.sum_cons, List.sum_nil]
  have hm1 : mean [1] = (1 : ℚ) := by
    norm_num [mean, List.sum_cons, List.sum_nil]
  have hf30 : CalMetrics.fmt4 30 = "30.0000" := by
    rw [fmt4_of_nonneg (by norm_num)
      (show round (|(30 : ℚ)| * 10000) = 300000 by norm_num [round_eq])]
    decide
  have hf1 : CalMetrics.fmt4 1 = "1.0000" := by
    rw [fmt4_of_nonneg (by norm_num)
      (show round (|(1 : ℚ)| * 10000) = 10000 by norm_num [round_eq])]
    decide
  have hart : CalMetrics.artifactLines [30] [1] =
      ["PSNR,SSIM", "30.0000,1.0000", "", "Average PSNR: 30.0000 dB",
        "Average SSIM: 1.0000"] := by
    simp [CalMetrics.artifactLines, hm30, hm1, hf30, hf1]
  have hclaimed : CalMetrics.claimedArtifactLines [30] [1] =
      ["30.0000,1.0000", "", "Average PSNR: 30.0000 dB",
        "Average SSIM: 1.0000"] := by
    simp [CalMetrics.claimedArtifactLines, hm30, hm1, hf30, hf1]
  have hnil : CalMetrics.artifactLines [] [] = ["PSNR,SSIM"] := by
    simp [CalMetrics.artifactLines]
  refine ⟨⟨hart, ?_⟩, hnil, ?_⟩
  · rw [hart, hclaimed]
    decide
  · rw [hnil]
    intro h
    have hl := congrArg List.length h
    simp [CalMetrics.claimedArtifactLines] at hl

/-- C8 (amended): the artifact opens with the header line `PSNR,SSIM`; after
it come exactly one `psnr,ssim` line per successfully evaluated pair (fixed
4-decimal precision), then — only when at least one pair succeeded — a blank
line and the two summary lines, and nothing else: with at least one success
the artifact is the header followed by exactly the claimed lines, and with
zero successes it is the header line alone. -/
theorem C8_artifact_layout (ps ss : List ℚ) (hlen : ps.length = ss.length) :
    (ps ≠ [] → CalMetrics.artifactLines ps ss =
      "PSNR,SSIM" :: CalMetrics.claimedArtifactLines ps ss) ∧
    (ps = [] → CalMetrics.artifactLines ps ss = ["PSNR,SSIM"]) ∧
    ((ps.zip ss).map (fun v => CalMetrics.fmt4 v.1 ++ "," ++ CalMetrics.fmt4 v.2)).length
      = ps.length := by
  refine ⟨?_, ?_, ?_⟩
  · intro hne
    simp [CalMetrics.artifactLines, CalMetrics.claimedArtifactLines, hne]
  · intro he
    subst he
    simp [CalMetrics.artifactLines]
  · simp [List.length_zip, hlen]

/-- Witness for C8's amended theorem, exercising both the one-success run of
the counterexample and the zero-success run. -/
theorem C8_artifact_layout_witness :
    (([30] : List ℚ).length = ([1] : List ℚ).length ∧ ([30] : List ℚ) ≠ [] ∧
      ([] : List ℚ).length = ([] : List ℚ).length) ∧
    (CalMetrics.artifactLines [30] [1] =
        "PSNR,SSIM" :: CalMetrics.claimedArtifactLines [30] [1] ∧
      ((([30] : List ℚ).zip [1]).map
          (fun v => CalMetrics.fmt4 v.1 ++ "," ++ CalMetrics.fmt4 v.2)).length
        = ([30] : List ℚ).length) ∧
    CalMetrics.artifactLines [] [] = ["PSNR,SSIM"] := by
  have h1 := C8_artifact_layout [30] [1] (by simp)
  have h0 := C8_artifact_layout ([] : List ℚ) ([] : List ℚ) rfl
  exact ⟨⟨by simp, by simp, rfl⟩, ⟨h1.1 (by simp), h1.2.2⟩, h0.2.1 rfl⟩

/-! ### C9 -/

/-- C9: the two value lists of the `cal_metrics.py` loop always have equal
length, and the entries at each index stem from the same matched pair: both
lists are projections of the one list of per-pair results, to which an
iteration contributes either both of its values or neither. -/
theorem C9_value_lists_parallel (env : Env) (resultsDir hrDir : String)
    (hrFiles resFiles : List String) :
    (CalMetrics.calLoop env resultsDir hrDir hrFiles ([], []) resFiles).1 =
        (CalMetrics.runPairs env resultsDir hrDir hrFiles resFiles).map
          CalMetrics.PairResult.psnrV ∧
    (CalMetrics.calLoop env resultsDir hrDir hrFiles ([], []) resFiles).2 =
        (CalMetrics.runPairs env resultsDir hrDir hrFiles resFiles).map
          CalMetrics.PairResult.ssimV ∧
    (CalMetrics.calLoop env resultsDir hrDir hrFiles ([], []) resFiles).1.length =
      (CalMetrics.calLoop env resultsDir hrDir hrFiles ([], []) resFiles).2.length := by
  have h := calLoop_eq env resultsDir hrDir hrFiles resFiles ([], [])
  rw [h]
  simp

/-! ### C10 -/

/-- Inversion of a successful `validate_directories`: both directories exist,
both filtered listings are non-empty, and the returned pair is exactly the
two filtered listings. -/
theorem validate_ok_inv {env : Env} {o g : String} {fs : List String × List String}
    (h : TestImage.validate_directories env o g = .ok fs) :
    env.dirExists g = true ∧ env.dirExists o = true ∧
    (env.listdir g).filter hasImgExt4 ≠ [] ∧
    (env.listdir o).filter hasImgExt4 ≠ [] ∧
    fs = ((env.listdir o).filter hasImgExt4, (env.listdir g).filter hasImgExt4) := by
  unfold TestImage.validate_directories at h
  split_ifs at h with h1 h2
  dsimp only [] at h
  split_ifs at h with h3 h4
  rw [Except.ok.injEq] at h
  exact ⟨by simpa using h1, by simpa using h2, h3, h4, h.symm⟩

/-- C10: `test_image/calculate_metrics.py` never lets an exception reach its
caller (the embedding is a total function into `Option`); each internal error
condition — a missing directory, a directory with no recognized images, no
common filenames, a metric call raising inside the loop, or zero successfully
processed pairs — is caught by the outer handler and turned into `none`
instead of the results dictionary. -/
theorem C10_errors_absorbed_to_none (env : Env) (output_dir gt_dir : String) :
    ((env.dirExists gt_dir = false ∨ env.dirExists output_dir = false) →
      (TestImage.calculate_metrics env output_dir gt_dir).1 = none) ∧
    (((env.listdir gt_dir).filter hasImgExt4 = [] ∨
        (env.listdir output_dir).filter hasImgExt4 = []) →
      (TestImage.calculate_metrics env output_dir gt_dir).1 = none) ∧
    (TestImage.sortedCommon ((env.listdir output_dir).filter hasImgExt4)
        ((env.listdir gt_dir).filter hasImgExt4) = [] →
      (TestImage.calculate_metrics env output_dir gt_dir).1 = none) ∧
    (∀ e t, TestImage.tiLoop env output_dir gt_dir
        (TestImage.sortedCommon ((env.listdir output_dir).filter hasImgExt4)
          ((env.listdir gt_dir).filter hasImgExt4)) = (.error e, t) →
      (TestImage.calculate_metrics env output_dir gt_dir).1 = none) ∧
    (∀ lo t, TestImage.tiLoop env output_dir gt_dir
        (TestImage.sortedCommon ((env.listdir output_dir).filter hasImgExt4)
          ((env.listdir gt_dir).filter hasImgExt4)) = (.ok lo, t) →
      lo.psnrValues = [] →
      (TestImage.calculate_metrics env output_dir gt_dir).1 = none) := by
  cases hv : TestImage.validate_directories env output_dir gt_dir with
  | error e =>
    exact ⟨fun _ => by simp [TestImage.calculate_metrics, hv],
      fun _ => by simp [TestImage.calculate_metrics, hv],
      fun _ => by simp [TestImage.calculate_metrics, hv],
      fun _ _ _ => by simp [TestImage.calculate_metrics, hv],
      fun _ _ _ _ => by simp [TestImage.calculate_metrics, hv]⟩
  | ok fs =>
    obtain ⟨hg, ho, hgne, hone, hfs⟩ := validate_ok_inv hv
    subst hfs
    refine ⟨?_, ?_, ?_, ?_, ?_⟩
    · intro hd
      rcases hd with hd | hd
      · rw [hg] at hd; cases hd
      · rw [ho] at hd; cases hd
    · intro hd
      rcases hd with hd | hd
      · exact absurd hd hgne
      · exact absurd hd hone
    · intro hc
      simp [TestImage.calculate_metrics, hv, hc]
    · intro e t ht
      by_cases hc : TestImage.sortedCommon ((env.listdir output_dir).filter hasImgExt4)
          ((env.listdir gt_dir).filter hasImgExt4) = []
      · simp [TestImage.calculate_metrics, hv, hc]
      · simp [TestImage.calculate_metrics, hv, hc, ht]
    · intro lo t ht hl
      by_cases hc : TestImage.sortedCommon ((env.listdir output_dir).filter hasImgExt4)
          ((env.listdir gt_dir).filter hasImgExt4) = []
      · simp [TestImage.calculate_metrics, hv, hc]
      · simp [TestImage.calculate_metrics, hv, hc, ht, hl]

/-- Witness for C10: a run whose ground-truth directory does not exist
returns `none`. -/
theorem C10_errors_absorbed_to_none_witness :
    (c7Env.dirExists "gt" = false ∨ c7Env.dirExists "out" = false) ∧
    (TestImage.calculate_metrics c7Env "out" "gt").1 = none :=
  ⟨Or.inl (by decide),
    (C10_errors_absorbed_to_none c7Env "out" "gt").1 (Or.inl (by decide))⟩

end ESRGAN
